import Mathlib

/-!
Shallow embedding of the reconciliation core of the repository: the
declarative-model derivation of `terraform_parser.py` (the
`TerraformResource` dataclass and its value resolution), the diffing engine
of `comparison_engine.py` (`ComparisonEngine.compare` and its helpers), and
the remediation synthesizer of `cli_generator.py` (`CliCommandGenerator`).

Python values flowing through the engine are modelled by the inductive type
`Value`; Python `dict`s are association lists with insertion-order update
semantics (`pySet`); Python string operations (`lower`, `strip`, `in`,
`split`, comparison) are re-implemented over `List Char` so that everything
is executable and kernel-reducible.
-/

/-- Python `str.lower()` (ASCII case mapping, which is all the engine uses). -/
def pyLower (s : String) : String := ⟨s.data.map Char.toLower⟩

/-- Whitespace stripped by Python `str.strip()`. -/
def pyWhitespace (c : Char) : Bool :=
  (c == ' ') || (c == '\t') || (c == '\n') || (c == '\r') || (c == '\x0b') || (c == '\x0c')

/-- Python `str.strip()`. -/
def pyStrip (s : String) : String :=
  ⟨((s.data.dropWhile pyWhitespace).reverse.dropWhile pyWhitespace).reverse⟩

/-- Does the character list start with the pattern? -/
def beginsWith : List Char → List Char → Bool
  | _, [] => true
  | [], _ :: _ => false
  | c :: cs, p :: ps => c == p && beginsWith cs ps

/-- Substring occurrence over character lists. -/
def containsSub : List Char → List Char → Bool
  | [], pat => pat.isEmpty
  | c :: cs, pat => beginsWith (c :: cs) pat || containsSub cs pat

/-- Python `pat in s` substring test. -/
def strContains (s pat : String) : Bool := containsSub s.data pat.data

/-- Helper for `splitDots`: accumulates the current component (reversed). -/
def splitDotsAux : List Char → List Char → List String
  | [], acc => [⟨acc.reverse⟩]
  | c :: cs, acc => if c == '.' then ⟨acc.reverse⟩ :: splitDotsAux cs [] else splitDotsAux cs (c :: acc)

/-- Python `s.split(".")` (the engine only ever splits on a dot). -/
def splitDots (s : String) : List String := splitDotsAux s.data []

/-- Python `s.split(".")[-1]`, the leaf field name of a dotted path. -/
def leafName (s : String) : String := (splitDots s).getLastD ""

/-- Lexicographic comparison of character lists, as Python compares strings. -/
def lexLe : List Char → List Char → Bool
  | [], _ => true
  | _ :: _, [] => false
  | a :: as, b :: bs => if a < b then true else if b < a then false else lexLe as bs

/-- Python `<=` on strings (lexicographic on code points). -/
def strLe (a b : String) : Bool := lexLe a.data b.data

/-- Python `sep.join(parts)`. -/
def joinSep (sep : String) : List String → String
  | [] => ""
  | [x] => x
  | x :: xs => x ++ sep ++ joinSep sep xs

/-- The Python values the engine manipulates: `None`, strings, booleans,
integers, lists and (string-keyed) dicts. -/
inductive Value where
  | none : Value
  | str (s : String) : Value
  | bool (b : Bool) : Value
  | int (n : Int) : Value
  | list (l : List Value) : Value
  | dict (d : List (String × Value)) : Value

/-- `v is None`. -/
def Value.isNone : Value → Bool
  | .none => true
  | _ => false

/-- Python truthiness for the values above. -/
def truthy : Value → Bool
  | .none => false
  | .str s => !(s == "")
  | .bool b => b
  | .int n => !(n == 0)
  | .list l => !l.isEmpty
  | .dict d => !d.isEmpty

/-- Entries of a value that is expected to be a dict (anything else
contributes nothing, matching the falsy-to-`{}` coercions in the source). -/
def Value.asDict : Value → List (String × Value)
  | .dict d => d
  | _ => []

/-- Python `d.get(k, dflt)` on an association-list dict. -/
def dictGetD (d : List (String × α)) (k : String) (dflt : α) : α :=
  (d.lookup k).getD dflt

/-- Python `d[k] = v`: update in place if the key exists (keeping its
position), otherwise append. -/
def pySet : List (String × α) → String → α → List (String × α)
  | [], k, v => [(k, v)]
  | (k1, v1) :: tl, k, v => if k1 = k then (k, v) :: tl else (k1, v1) :: pySet tl k v

mutual
/-- Python `==` between values (`None == None`, `True == 1`, deep on
lists, order-insensitive on dicts). -/
def pyEq : Value → Value → Bool
  | .none, .none => true
  | .str a, .str b => a == b
  | .bool a, .bool b => a == b
  | .int a, .int b => a == b
  | .bool a, .int b => (if a then (1 : Int) else 0) == b
  | .int a, .bool b => a == (if b then (1 : Int) else 0)
  | .list a, .list b => pyEqList a b
  | .dict a, .dict b => a.length == b.length && pyEqDict a b
  | _, _ => false

def pyEqList : List Value → List Value → Bool
  | [], [] => true
  | x :: xs, y :: ys => pyEq x y && pyEqList xs ys
  | _, _ => false

def pyEqDict : List (String × Value) → List (String × Value) → Bool
  | [], _ => true
  | (k, v) :: rest, b =>
    (match b.lookup k with
     | some w => pyEq v w
     | Option.none => false) && pyEqDict rest b
end

/-- Total comparison used to model Python `sorted` inside value
normalization; on strings it is Python's lexicographic order, which is the
only case the engine's data ever exercises. -/
def vleb : Value → Value → Bool
  | .str a, .str b => strLe a b
  | .int a, .int b => a ≤ b
  | .bool a, .bool b => !a || b
  | .bool a, .int b => (if a then (1 : Int) else 0) ≤ b
  | .int a, .bool b => a ≤ (if b then (1 : Int) else 0)
  | .none, _ => true
  | _, .none => false
  | .str _, _ => false
  | _, .str _ => true
  | .list _, .dict _ => true
  | .dict _, .list _ => false
  | _, _ => true

/-- The ordering relation fed to `List.insertionSort`. -/
def vle (a b : Value) : Prop := vleb a b = true

instance : DecidableRel vle := fun a b => inferInstanceAs (Decidable (vleb a b = true))

mutual
/-- `ComparisonEngine._normalize_value`: lower-case and strip strings, sort
normalized lists, normalize dict values key-wise. -/
def normalizeValue : Value → Value
  | .none => .none
  | .str s => .str (pyStrip (pyLower s))
  | .bool b => .bool b
  | .int n => .int n
  | .list l => .list (List.insertionSort vle (normalizeList l))
  | .dict d => .dict (normalizeDict d)

def normalizeList : List Value → List Value
  | [] => []
  | v :: vs => normalizeValue v :: normalizeList vs

def normalizeDict : List (String × Value) → List (String × Value)
  | [] => []
  | (k, v) :: rest => (k, normalizeValue v) :: normalizeDict rest
end

/-- `set(val1.keys()) == set(val2.keys())`. -/
def keySetEq (a b : List (String × Value)) : Bool :=
  a.all (fun p => (b.lookup p.1).isSome) && b.all (fun p => (a.lookup p.1).isSome)

mutual
/-- `ComparisonEngine._values_equal`: `None` only equals `None`; lists by
length and position; dicts by key set then key-wise; otherwise Python `==`. -/
def valuesEqual : Value → Value → Bool
  | .none, .none => true
  | .none, _ => false
  | _, .none => false
  | .list a, .list b => a.length == b.length && valuesEqualList a b
  | .dict a, .dict b => keySetEq a b && valuesEqualDict a b
  | v1, v2 => pyEq v1 v2

def valuesEqualList : List Value → List Value → Bool
  | [], _ => true
  | _, [] => true
  | x :: xs, y :: ys => valuesEqual x y && valuesEqualList xs ys

def valuesEqualDict : List (String × Value) → List (String × Value) → Bool
  | [], _ => true
  | (k, v) :: rest, b => valuesEqual v (dictGetD b k Value.none) && valuesEqualDict rest b
end

mutual
/-- Python `repr` for the modelled values (only exercised through `str` on
containers, which the engine applies when formatting parameters). -/
def pyRepr : Value → String
  | .none => "None"
  | .str s => "\x27" ++ s ++ "\x27"
  | .bool b => if b then "True" else "False"
  | .int n => toString n
  | .list l => "[" ++ joinSep ", " (pyReprList l) ++ "]"
  | .dict d => "\x7b" ++ joinSep ", " (pyReprDict d) ++ "\x7d"

def pyReprList : List Value → List String
  | [] => []
  | v :: vs => pyRepr v :: pyReprList vs

def pyReprDict : List (String × Value) → List String
  | [] => []
  | (k, v) :: rest => ("\x27" ++ k ++ "\x27: " ++ pyRepr v) :: pyReprDict rest
end

/-- Python `str(value)`. -/
def pyStr : Value → String
  | .str s => s
  | v => pyRepr v

/-! ## `terraform_parser.py`: the declarative resource model -/

/-- `TERRAFORM_TO_AZURE_TYPE` from `terraform_parser.py`. -/
def TERRAFORM_TO_AZURE_TYPE : List (String × String) :=
  [("azurerm_resource_group", "Microsoft.Resources/resourceGroups"),
   ("azurerm_storage_account", "Microsoft.Storage/storageAccounts"),
   ("azurerm_storage_container", "Microsoft.Storage/storageAccounts/blobServices/containers"),
   ("azurerm_virtual_network", "Microsoft.Network/virtualNetworks"),
   ("azurerm_subnet", "Microsoft.Network/virtualNetworks/subnets"),
   ("azurerm_network_security_group", "Microsoft.Network/networkSecurityGroups"),
   ("azurerm_network_security_rule", "Microsoft.Network/networkSecurityGroups/securityRules"),
   ("azurerm_public_ip", "Microsoft.Network/publicIPAddresses"),
   ("azurerm_network_interface", "Microsoft.Network/networkInterfaces"),
   ("azurerm_linux_virtual_machine", "Microsoft.Compute/virtualMachines"),
   ("azurerm_windows_virtual_machine", "Microsoft.Compute/virtualMachines"),
   ("azurerm_virtual_machine", "Microsoft.Compute/virtualMachines"),
   ("azurerm_key_vault", "Microsoft.KeyVault/vaults"),
   ("azurerm_key_vault_secret", "Microsoft.KeyVault/vaults/secrets"),
   ("azurerm_key_vault_key", "Microsoft.KeyVault/vaults/keys")]

/-- `TERRAFORM_TO_AZURE_TYPE.get(t, t)`: the canonical (Azure) type of a
Terraform type. -/
def canonicalType (t : String) : String := (TERRAFORM_TO_AZURE_TYPE.lookup t).getD t

/-- A parsed Terraform resource definition (`TerraformResource`). The fields
`azure_type`, `resource_name`, `location` and `tags` that `__post_init__`
derives are modelled as functions below. -/
structure TerraformResource where
  terraform_type : String
  name : String
  config : List (String × Value)

/-- `TerraformResource._resolve_value`: wrap strings containing an
interpolation in an `<variable: ...>` marker, unwrap singleton lists,
stringify other truthy values, and map falsy values to `""`. -/
def resolveValueStr : Value → String
  | .str s => if strContains s "$\x7b" then "<variable: " ++ s ++ ">" else s
  | .list [v] => resolveValueStr v
  | v => if truthy v then pyStr v else ""

/-- Derived `resource_name` (from the `name` field, defaulting to the block
identifier), as set by `__post_init__`. -/
def TerraformResource.resource_name (r : TerraformResource) : String :=
  resolveValueStr (dictGetD r.config "name" (.str r.name))

/-- Derived `location`, as set by `__post_init__`. -/
def TerraformResource.location (r : TerraformResource) : String :=
  resolveValueStr (dictGetD r.config "location" (.str ""))

/-- Derived `tags`, as set by `__post_init__`. -/
def TerraformResource.tags (r : TerraformResource) : Value :=
  dictGetD r.config "tags" (.dict [])

/-- Derived `azure_type`, as set by `__post_init__`. -/
def TerraformResource.azure_type (r : TerraformResource) : String :=
  canonicalType r.terraform_type

/-- `TerraformVariable` from `terraform_parser.py` (the `default` field is
`Value.none` when the declaration carries no default). -/
structure TerraformVariable where
  name : String
  default : Value := Value.none
  description : Option String := Option.none
  type : Option String := Option.none

/-- Python `s.endswith(pat)` over character lists. -/
def endsWithList (l pat : List Char) : Bool := beginsWith l.reverse pat.reverse

mutual
/-- `TerraformParser._resolve_value`: a string of the exact form
`${var.name}` resolves to a caller-supplied override, else to the
variable's declared non-null default; otherwise (undeclared or
override-less variables, `${local.*}` references, plain strings) the raw
string passes through unchanged; lists and dicts resolve element-wise. -/
def parserResolveValue (tfvars : List (String × Value))
    (vardecls : List (String × TerraformVariable)) : Value → Value
  | .str s =>
    if beginsWith s.data ("$\x7bvar.").data && endsWithList s.data ("\x7d").data then
      let var_name : String := ⟨(s.data.drop 6).dropLast⟩
      match tfvars.lookup var_name with
      | some v => v
      | Option.none =>
        match vardecls.lookup var_name with
        | some tv => if tv.default.isNone then .str s else tv.default
        | Option.none => .str s
    else .str s
  | .list l => .list (parserResolveList tfvars vardecls l)
  | .dict d => .dict (parserResolveDict tfvars vardecls d)
  | v => v

def parserResolveList (tfvars : List (String × Value))
    (vardecls : List (String × TerraformVariable)) : List Value → List Value
  | [] => []
  | v :: vs =>
    parserResolveValue tfvars vardecls v :: parserResolveList tfvars vardecls vs

def parserResolveDict (tfvars : List (String × Value))
    (vardecls : List (String × TerraformVariable)) :
    List (String × Value) → List (String × Value)
  | [] => []
  | (k, v) :: rest =>
    (k, parserResolveValue tfvars vardecls v) :: parserResolveDict tfvars vardecls rest
end

/-! ## `azure_scanner.py`: the live inventory record -/

/-- `AzureResource` from `azure_scanner.py`. -/
structure AzureResource where
  name : String
  resource_type : String
  location : String
  resource_group : String
  resource_id : String
  tags : List (String × String) := []
  properties : List (String × Value) := []
  sku : Option (List (String × Value)) := Option.none
  kind : Option String := Option.none

/-- `getattr(resource, part, None)` for the fields of `AzureResource`. -/
def AzureResource.attr (r : AzureResource) (f : String) : Value :=
  if f = "name" then .str r.name
  else if f = "resource_type" then .str r.resource_type
  else if f = "location" then .str r.location
  else if f = "resource_group" then .str r.resource_group
  else if f = "resource_id" then .str r.resource_id
  else if f = "tags" then .dict (r.tags.map (fun p => (p.1, Value.str p.2)))
  else if f = "properties" then .dict r.properties
  else if f = "sku" then (match r.sku with | some d => .dict d | Option.none => .none)
  else if f = "kind" then (match r.kind with | some s => .str s | Option.none => .none)
  else .none

/-- The dict-traversal tail of `ComparisonEngine._get_nested_value`: each
remaining path part is looked up in a dict (anything else, or a missing or
`None` value, short-circuits to `None`). -/
def getNestedAux : Value → List String → Value
  | v, [] => v
  | .dict d, p :: ps =>
    let v := dictGetD d p Value.none
    if v.isNone then Value.none else getNestedAux v ps
  | _, _ :: _ => Value.none

/-- `ComparisonEngine._get_nested_value`: dotted-path traversal starting at
the resource's attributes. -/
def getNestedValue (r : AzureResource) (path : String) : Value :=
  match splitDots path with
  | [] => Value.none
  | p :: ps =>
    let v := r.attr p
    if v.isNone then Value.none else getNestedAux v ps

/-! ## `comparison_engine.py`: diffing and risk classification -/

/-- `DifferenceType`. -/
inductive DifferenceType where
  | missing_in_azure : DifferenceType
  | missing_in_terraform : DifferenceType
  | property_drift : DifferenceType
deriving DecidableEq

/-- `RiskLevel`. -/
inductive RiskLevel where
  | low : RiskLevel
  | medium : RiskLevel
  | high : RiskLevel
deriving DecidableEq

/-- `PropertyDifference`. -/
structure PropertyDifference where
  property_path : String
  terraform_value : Value
  azure_value : Value
  description : String := ""

/-- `ResourceDifference`. -/
structure ResourceDifference where
  difference_type : DifferenceType
  resource_name : String
  resource_type : String
  terraform_type : Option String := Option.none
  terraform_resource : Option TerraformResource := Option.none
  azure_resource : Option AzureResource := Option.none
  property_differences : List PropertyDifference := []
  risk_level : RiskLevel := .medium

/-- `ComparisonResult`. -/
structure ComparisonResult where
  resource_group : String
  differences : List ResourceDifference := []
  azure_resource_count : Nat := 0
  terraform_resource_count : Nat := 0
  matched_count : Nat := 0

namespace ComparisonEngine

/-- `PROPERTY_MAPPINGS` from `comparison_engine.py`: per Terraform type, the
declarative field name and the dotted path into the live record. -/
def PROPERTY_MAPPINGS : List (String × List (String × String)) :=
  [("azurerm_storage_account",
    [("name", "name"), ("location", "location"),
     ("account_tier", "properties.account_tier"),
     ("account_replication_type", "properties.account_replication_type"),
     ("access_tier", "properties.access_tier"),
     ("enable_https_traffic_only", "properties.enable_https_traffic_only"),
     ("min_tls_version", "properties.min_tls_version"),
     ("allow_nested_items_to_be_public", "properties.allow_blob_public_access"),
     ("tags", "tags")]),
   ("azurerm_virtual_network",
    [("name", "name"), ("location", "location"),
     ("address_space", "properties.address_space"),
     ("dns_servers", "properties.dns_servers"),
     ("tags", "tags")]),
   ("azurerm_network_security_group",
    [("name", "name"), ("location", "location"), ("tags", "tags")]),
   ("azurerm_linux_virtual_machine",
    [("name", "name"), ("location", "location"),
     ("size", "properties.vm_size"),
     ("admin_username", "properties.os_profile.admin_username"),
     ("computer_name", "properties.os_profile.computer_name"),
     ("tags", "tags")]),
   ("azurerm_windows_virtual_machine",
    [("name", "name"), ("location", "location"),
     ("size", "properties.vm_size"),
     ("admin_username", "properties.os_profile.admin_username"),
     ("computer_name", "properties.os_profile.computer_name"),
     ("tags", "tags")]),
   ("azurerm_key_vault",
    [("name", "name"), ("location", "location"),
     ("sku_name", "properties.sku_name"),
     ("soft_delete_retention_days", "properties.soft_delete_enabled"),
     ("purge_protection_enabled", "properties.purge_protection_enabled"),
     ("enabled_for_deployment", "properties.enabled_for_deployment"),
     ("enabled_for_disk_encryption", "properties.enabled_for_disk_encryption"),
     ("enabled_for_template_deployment", "properties.enabled_for_template_deployment"),
     ("tags", "tags")])]

/-- The projection table of a Terraform type (`PROPERTY_MAPPINGS.get(t, {})`). -/
def mappingFor (t : String) : List (String × String) :=
  (PROPERTY_MAPPINGS.lookup t).getD []

/-- Is the declarative value a string carrying the unresolved-variable
marker (`"<variable:" in tf_value`)? -/
def isUnresolvedMarker : Value → Bool
  | .str s => strContains s "<variable:"
  | _ => false

/-- One step of the field-projection loop of
`ComparisonEngine._compare_properties`. -/
def projectField (tf : TerraformResource) (az : AzureResource)
    (pm : String × String) : Option PropertyDifference :=
  let tf_value := dictGetD tf.config pm.1 Value.none
  let azure_value := getNestedValue az pm.2
  if tf_value.isNone then Option.none
  else if isUnresolvedMarker tf_value then Option.none
  else if valuesEqual (normalizeValue tf_value) (normalizeValue azure_value) then Option.none
  else some { property_path := pm.1, terraform_value := tf_value,
              azure_value := azure_value,
              description := "Property \x27" ++ pm.1 ++ "\x27 differs" }

/-- The field-projection loop of `_compare_properties` (everything before
the separate tag comparison). -/
def projLoop (tf : TerraformResource) (az : AzureResource) : List PropertyDifference :=
  (mappingFor tf.terraform_type).filterMap (projectField tf az)

/-- `{k.lower(): v for k, v in tags.items()}` for declarative tags. -/
def lowerDictV (d : List (String × Value)) : List (String × Value) :=
  d.foldl (fun acc kv => pySet acc (pyLower kv.1) kv.2) []

/-- `{k.lower(): v for k, v in tags.items()}` for live tags (string-valued). -/
def lowerDictS (d : List (String × String)) : List (String × Value) :=
  d.foldl (fun acc kv => pySet acc (pyLower kv.1) (Value.str kv.2)) []

/-- One key of the union in `ComparisonEngine._compare_tags`. -/
def tagStep (tfL azL : List (String × Value)) (k : String) : Option PropertyDifference :=
  let tf_value := dictGetD tfL k Value.none
  let azure_value := dictGetD azL k Value.none
  if pyEq tf_value azure_value then Option.none
  else if tf_value.isNone then Option.none
  else if azure_value.isNone then
    some { property_path := "tags." ++ k, terraform_value := tf_value,
           azure_value := Value.none,
           description := "Tag \x27" ++ k ++ "\x27 missing in Azure" }
  else
    some { property_path := "tags." ++ k, terraform_value := tf_value,
           azure_value := azure_value,
           description := "Tag \x27" ++ k ++ "\x27 value differs" }

/-- `ComparisonEngine._compare_tags`: lower-case keys on both sides, walk
the key union (Python iterates it in unspecified set order; the model fixes
declarative-then-live order, which no claim about the output as a set
depends on). -/
def compareTags (tf_tags : Value) (azure_tags : List (String × String)) :
    List PropertyDifference :=
  let tfL := lowerDictV tf_tags.asDict
  let azL := lowerDictS azure_tags
  let allKeys := ((tfL.map Prod.fst) ++ (azL.map Prod.fst)).dedup
  allKeys.filterMap (tagStep tfL azL)

/-- `ComparisonEngine._compare_properties`: the projected-field differences
followed by the tag differences. -/
def compareProperties (tf : TerraformResource) (az : AzureResource) :
    List PropertyDifference :=
  projLoop tf az ++ compareTags (dictGetD tf.config "tags" (.dict [])) az.tags

/-- `high_risk_properties` from `_assess_risk`. -/
def high_risk_properties : List String :=
  ["network_rules", "access_policies", "security_rules",
   "admin_username", "admin_password", "sku_name", "size"]

/-- `medium_risk_properties` from `_assess_risk`. -/
def medium_risk_properties : List String :=
  ["location", "address_space", "subnets", "vm_size"]

/-- `ComparisonEngine._assess_risk`: first high-risk leaf name wins, then
first medium-risk leaf name, else LOW. -/
def assessRisk (diffs : List PropertyDifference) : RiskLevel :=
  match diffs.find? (fun d => high_risk_properties.contains (leafName d.property_path)) with
  | some _ => .high
  | Option.none =>
    match diffs.find? (fun d => medium_risk_properties.contains (leafName d.property_path)) with
    | some _ => .medium
    | Option.none => .low

/-- The Azure-side index of `compare`: type, then lower-cased name. -/
def buildAzureIndex (rs : List AzureResource) :
    List (String × List (String × AzureResource)) :=
  rs.foldl (fun idx r =>
    let inner := (idx.lookup r.resource_type).getD []
    pySet idx r.resource_type (pySet inner (pyLower r.name) r)) []

/-- The comparison key of a Terraform resource:
`resource.resource_name.lower() if resource.resource_name else resource.name.lower()`. -/
def tfKeyName (r : TerraformResource) : String :=
  if r.resource_name ≠ "" then pyLower r.resource_name else pyLower r.name

/-- The Terraform-side index of `compare` (built by the source and never
read afterwards): canonical type, then comparison key. -/
def buildTerraformIndex (rs : List TerraformResource) :
    List (String × List (String × TerraformResource)) :=
  rs.foldl (fun idx r =>
    let azure_type := canonicalType r.terraform_type
    let inner := (idx.lookup azure_type).getD []
    pySet idx azure_type (pySet inner (tfKeyName r) r)) []

/-- `index.get(key, {}).get(name)` on a two-level index. -/
def indexLookup (idx : List (String × List (String × α)))
    (t n : String) : Option α :=
  match idx.lookup t with
  | some inner => inner.lookup n
  | Option.none => Option.none

/-- The accumulating state of the matching loop of `compare`. -/
structure CompareAcc where
  differences : List ResourceDifference := []
  matchedAzure : List String := []
  matchedCount : Nat := 0

/-- The `missing_in_azure` `ResourceDifference` built by `compare` for an
unmatched Terraform resource (`risk_level=RiskLevel.MEDIUM`, literally). -/
def missingAzureDiff (r : TerraformResource) : ResourceDifference :=
  { difference_type := .missing_in_azure,
    resource_name := if r.resource_name ≠ "" then r.resource_name else r.name,
    resource_type := canonicalType r.terraform_type,
    terraform_type := some r.terraform_type,
    terraform_resource := some r,
    risk_level := .medium }

/-- The `property_drift` `ResourceDifference` built by `compare` for a
matched pair with differences (`risk_level=self._assess_risk(property_diffs)`). -/
def driftDiff (r : TerraformResource) (azure_resource : AzureResource) : ResourceDifference :=
  let property_diffs := compareProperties r azure_resource
  { difference_type := .property_drift,
    resource_name := azure_resource.name,
    resource_type := canonicalType r.terraform_type,
    terraform_type := some r.terraform_type,
    terraform_resource := some r,
    azure_resource := some azure_resource,
    property_differences := property_diffs,
    risk_level := assessRisk property_diffs }

/-- The `missing_in_terraform` `ResourceDifference` built by `compare` for
an unmatched live record (`risk_level=RiskLevel.LOW`, informational). -/
def missingTfDiff (azure_type : String) (azure_resource : AzureResource) : ResourceDifference :=
  { difference_type := .missing_in_terraform,
    resource_name := azure_resource.name,
    resource_type := azure_type,
    azure_resource := some azure_resource,
    risk_level := .low }

/-- The body of the first loop of `compare`, run once per Terraform
resource: skip unresolved names, report a missing resource, or compare a
matched pair. -/
def compareStep (azureIndex : List (String × List (String × AzureResource)))
    (acc : CompareAcc) (r : TerraformResource) : CompareAcc :=
  let azure_type := canonicalType r.terraform_type
  let resource_name := tfKeyName r
  if strContains resource_name "<variable:" then acc
  else
    match indexLookup azureIndex azure_type resource_name with
    | Option.none =>
      { acc with differences := acc.differences ++ [missingAzureDiff r] }
    | some azure_resource =>
      let acc := { acc with matchedAzure := (azure_type ++ ":" ++ resource_name) :: acc.matchedAzure }
      let property_diffs := compareProperties r azure_resource
      if property_diffs.isEmpty then { acc with matchedCount := acc.matchedCount + 1 }
      else
        { acc with differences := acc.differences ++ [driftDiff r azure_resource] }

/-- The second loop of `compare`: every indexed live record whose key was
not matched becomes a `missing_in_terraform` difference. -/
def missingInTfDiffs (azureIndex : List (String × List (String × AzureResource)))
    (matched : List String) : List ResourceDifference :=
  azureIndex.foldl (fun acc p =>
    acc ++ p.2.foldl (fun acc2 q =>
      if matched.contains (p.1 ++ ":" ++ q.1) then acc2
      else acc2 ++ [missingTfDiff p.1 q.2]) []) []

/-- `ComparisonEngine.compare`. -/
def compare (resource_group : String) (azure_resources : List AzureResource)
    (terraform_resources : List TerraformResource) : ComparisonResult :=
  let azure_index := buildAzureIndex azure_resources
  let _terraform_index := buildTerraformIndex terraform_resources
  let acc := terraform_resources.foldl (compareStep azure_index) {}
  { resource_group := resource_group,
    azure_resource_count := azure_resources.length,
    terraform_resource_count := terraform_resources.length,
    matched_count := acc.matchedCount,
    differences := acc.differences ++ missingInTfDiffs azure_index acc.matchedAzure }

end ComparisonEngine

/-! ## `cli_generator.py`: remediation synthesis -/

/-- `CliCommand`. -/
structure CliCommand where
  command : String
  description : String
  action : String
  resource_name : String
  resource_type : String
  risk_level : RiskLevel
  parameters : List (String × String) := []

/-- The generator object (`CliCommandGenerator.__init__` state). -/
structure CliCommandGenerator where
  resource_group : String
  subscription_id : Option String := Option.none

namespace CliCommandGenerator

/-- One entry of the `CLI_COMMANDS` table. -/
structure CliCmdCfg where
  create : String
  update : String
  resource_name_param : String

/-- `CLI_COMMANDS` from `cli_generator.py`. -/
def CLI_COMMANDS : List (String × CliCmdCfg) :=
  [("azurerm_storage_account",
    ⟨"az storage account create", "az storage account update", "--name"⟩),
   ("azurerm_virtual_network",
    ⟨"az network vnet create", "az network vnet update", "--name"⟩),
   ("azurerm_subnet",
    ⟨"az network vnet subnet create", "az network vnet subnet update", "--name"⟩),
   ("azurerm_network_security_group",
    ⟨"az network nsg create", "az network nsg update", "--name"⟩),
   ("azurerm_linux_virtual_machine",
    ⟨"az vm create", "az vm update", "--name"⟩),
   ("azurerm_windows_virtual_machine",
    ⟨"az vm create", "az vm update", "--name"⟩),
   ("azurerm_key_vault",
    ⟨"az keyvault create", "az keyvault update", "--name"⟩)]

/-- `PROPERTY_MAPPINGS` from `cli_generator.py`: declarative field name to
CLI flag, per Terraform type. -/
def PROPERTY_MAPPINGS : List (String × List (String × String)) :=
  [("azurerm_storage_account",
    [("location", "--location"),
     ("account_tier", "--sku"),
     ("account_replication_type", "--sku"),
     ("access_tier", "--access-tier"),
     ("enable_https_traffic_only", "--https-only"),
     ("min_tls_version", "--min-tls-version"),
     ("allow_nested_items_to_be_public", "--allow-blob-public-access"),
     ("tags", "--tags")]),
   ("azurerm_virtual_network",
    [("location", "--location"),
     ("address_space", "--address-prefixes"),
     ("dns_servers", "--dns-servers"),
     ("tags", "--tags")]),
   ("azurerm_network_security_group",
    [("location", "--location"), ("tags", "--tags")]),
   ("azurerm_linux_virtual_machine",
    [("location", "--location"), ("size", "--size"),
     ("admin_username", "--admin-username"), ("tags", "--tags")]),
   ("azurerm_windows_virtual_machine",
    [("location", "--location"), ("size", "--size"),
     ("admin_username", "--admin-username"), ("tags", "--tags")]),
   ("azurerm_key_vault",
    [("location", "--location"), ("sku_name", "--sku"),
     ("enabled_for_deployment", "--enabled-for-deployment"),
     ("enabled_for_disk_encryption", "--enabled-for-disk-encryption"),
     ("enabled_for_template_deployment", "--enabled-for-template-deployment"),
     ("tags", "--tags")])]

/-- `CliCommandGenerator._is_variable`: strings containing the unresolved
marker or a raw interpolation. -/
def isVariable : Value → Bool
  | .str s => strContains s "<variable:" || strContains s "$\x7b"
  | _ => false

/-- `CliCommandGenerator._format_param_value`. -/
def formatParamValue : Value → String
  | .bool b => if b then "true" else "false"
  | .list l => joinSep " " (l.map pyStr)
  | .dict d => joinSep " " (d.map (fun p => p.1 ++ "=" ++ pyStr p.2))
  | v => pyStr v

/-- `CliCommandGenerator._handle_special_cases`: the storage-account SKU
compositing and the VM image compositing, each allowed to overwrite earlier
parameters. -/
def handleSpecialCases (terraform_type : String) (config : List (String × Value))
    (params : List (String × String)) : List (String × String) :=
  if terraform_type = "azurerm_storage_account" then
    let tier := dictGetD config "account_tier" (.str "Standard")
    let replication := dictGetD config "account_replication_type" (.str "LRS")
    if truthy tier && truthy replication then
      pySet params "--sku" (pyStr tier ++ "_" ++ pyStr replication)
    else params
  else if terraform_type = "azurerm_linux_virtual_machine" ∨
          terraform_type = "azurerm_windows_virtual_machine" then
    let source_image := dictGetD config "source_image_reference" (.dict [])
    let source_image := match source_image with
      | .list (x :: _) => x
      | v => v
    match source_image with
    | .dict d =>
      let publisher := dictGetD d "publisher" Value.none
      let offer := dictGetD d "offer" Value.none
      let sku := dictGetD d "sku" Value.none
      let version := dictGetD d "version" (.str "latest")
      if truthy publisher && truthy offer && truthy sku then
        pySet params "--image"
          (pyStr publisher ++ ":" ++ pyStr offer ++ ":" ++ pyStr sku ++ ":" ++ pyStr version)
      else params
    | _ => params
  else params

/-- `CliCommandGenerator._build_command_string`. -/
def buildCommandString (base_cmd : String) (params : List (String × String)) : String :=
  joinSep " \\\n    "
    (base_cmd :: params.map (fun p =>
      if strContains p.2 " " then p.1 ++ " \"" ++ p.2 ++ "\"" else p.1 ++ " " ++ p.2))

/-- Truthiness of the optional subscription id (`if self.subscription_id:`). -/
def subscriptionTruthy : Option String → Bool
  | some s => !(s == "")
  | Option.none => false

/-- `CliCommandGenerator._generate_create_command`. -/
def generateCreateCommand (g : CliCommandGenerator) (diff : ResourceDifference) :
    Option CliCommand :=
  match diff.terraform_type, diff.terraform_resource with
  | some tft, some tfr =>
    if tft = "" then Option.none else
    match CLI_COMMANDS.lookup tft with
    | Option.none => Option.none
    | some cmd_config =>
      let params := pySet (pySet [] cmd_config.resource_name_param diff.resource_name)
        "--resource-group" g.resource_group
      let params := if subscriptionTruthy g.subscription_id then
          pySet params "--subscription" (g.subscription_id.getD "") else params
      let prop_mapping := (PROPERTY_MAPPINGS.lookup tft).getD []
      let params := prop_mapping.foldl (fun ps pm =>
        let value := dictGetD tfr.config pm.1 Value.none
        if !value.isNone && !isVariable value then pySet ps pm.2 (formatParamValue value)
        else ps) params
      let params := handleSpecialCases tft tfr.config params
      some { command := buildCommandString cmd_config.create params,
             description := "Create " ++ tft ++ " \x27" ++ diff.resource_name ++ "\x27",
             action := "create",
             resource_name := diff.resource_name,
             resource_type := diff.resource_type,
             risk_level := .medium,
             parameters := params }
  | _, _ => Option.none

/-- `CliCommandGenerator._generate_update_command`. -/
def generateUpdateCommand (g : CliCommandGenerator) (diff : ResourceDifference) :
    Option CliCommand :=
  match diff.terraform_type with
  | Option.none => Option.none
  | some tft =>
    if tft = "" then Option.none else
    match CLI_COMMANDS.lookup tft with
    | Option.none => Option.none
    | some cmd_config =>
      let params := pySet (pySet [] cmd_config.resource_name_param diff.resource_name)
        "--resource-group" g.resource_group
      let params := if subscriptionTruthy g.subscription_id then
          pySet params "--subscription" (g.subscription_id.getD "") else params
      let prop_mapping := (PROPERTY_MAPPINGS.lookup tft).getD []
      let params := diff.property_differences.foldl (fun ps prop_diff =>
        let prop_name := leafName prop_diff.property_path
        match prop_mapping.lookup prop_name with
        | some cli_param =>
          if cli_param ≠ "" ∧ !prop_diff.terraform_value.isNone then
            if !isVariable prop_diff.terraform_value then
              pySet ps cli_param (formatParamValue prop_diff.terraform_value)
            else ps
          else ps
        | Option.none => ps) params
      if params.length ≤ 3 then Option.none
      else
        some { command := buildCommandString cmd_config.update params,
               description := "Update " ++ tft ++ " \x27" ++ diff.resource_name ++
                 "\x27 - properties: " ++
                 joinSep ", " (diff.property_differences.map (fun d => d.property_path)),
               action := "update",
               resource_name := diff.resource_name,
               resource_type := diff.resource_type,
               risk_level := diff.risk_level,
               parameters := params }

/-- `CliCommandGenerator.generate_commands`: create commands for resources
missing in Azure, update commands for drift, nothing for resources missing
only in Terraform. -/
def generateCommands (g : CliCommandGenerator) (comparison_result : ComparisonResult) :
    List CliCommand :=
  comparison_result.differences.filterMap (fun diff =>
    if diff.difference_type = .missing_in_azure then generateCreateCommand g diff
    else if diff.difference_type = .property_drift then generateUpdateCommand g diff
    else Option.none)

end CliCommandGenerator

/-! ## Auxiliary definitions used by the verification (claim scenarios,
named helpers over the embedded functions) -/
/-- The common shape of one insertion into a two-level index in `compare`. -/
def insert2 {α : Type} (tk nk : α → String)
    (idx : List (String × List (String × α))) (r : α) :
    List (String × List (String × α)) :=
  pySet idx (tk r) (pySet ((idx.lookup (tk r)).getD []) (nk r) r)

/-- C3 scenario: a declarative storage account named `MyAcct`. -/
def tfMyAcct : TerraformResource :=
  { terraform_type := "azurerm_storage_account", name := "acct",
    config := [("name", .str "MyAcct")] }

/-- C3 scenario: a live storage account named `myacct`. -/
def azSaC3 : AzureResource :=
  { name := "myacct", resource_type := "Microsoft.Storage/storageAccounts",
    location := "eastus", resource_group := "rg", resource_id := "sa-id" }

/-- C3 scenario: a live key vault named `MyAcct` (same name, different
canonical type). -/
def azKvC3 : AzureResource :=
  { name := "MyAcct", resource_type := "Microsoft.KeyVault/vaults",
    location := "eastus", resource_group := "rg", resource_id := "kv-id" }

/-- C1 failing input: a declarative storage account whose `account_tier` is
an unresolved variable expression. -/
def tfSaC1 : TerraformResource :=
  { terraform_type := "azurerm_storage_account", name := "sa",
    config := [("name", .str "sa1"),
               ("account_tier", .str "$\x7bvar.tier\x7d"),
               ("account_replication_type", .str "LRS")] }

/-- C6 scenario: declarative vnet `vnet-core` at `eastus`. -/
def tfVnetC6 : TerraformResource :=
  { terraform_type := "azurerm_virtual_network", name := "vnet",
    config := [("name", .str "vnet-core"), ("location", .str "eastus")] }

/-- C6 scenario: the matched live vnet, actually at `westus2`. -/
def azVnetC6 : AzureResource :=
  { name := "vnet-core", resource_type := "Microsoft.Network/virtualNetworks",
    location := "westus2", resource_group := "rg", resource_id := "vnet-id" }

/-- The per-difference dispatch of `generate_commands`. -/
def genFor (g : CliCommandGenerator) (diff : ResourceDifference) : Option CliCommand :=
  if diff.difference_type = .missing_in_azure then CliCommandGenerator.generateCreateCommand g diff
  else if diff.difference_type = .property_drift then CliCommandGenerator.generateUpdateCommand g diff
  else Option.none

/-- Leaf-name membership in the high-risk set, as tested by `_assess_risk`. -/
def isHighRiskDiff (p : PropertyDifference) : Bool :=
  ComparisonEngine.high_risk_properties.contains (leafName p.property_path)

/-- Leaf-name membership in the medium-risk set, as tested by `_assess_risk`. -/
def isMediumRiskDiff (p : PropertyDifference) : Bool :=
  ComparisonEngine.medium_risk_properties.contains (leafName p.property_path)

/-- C4 witness scenario: a matched Linux VM drifting in both `location`
and `size`. -/
def tfVmC4 : TerraformResource :=
  { terraform_type := "azurerm_linux_virtual_machine", name := "vm",
    config := [("name", .str "vm-app1"), ("location", .str "eastus"),
               ("size", .str "Standard_B2s")] }

/-- C4 witness scenario: the live VM at `westus` with a smaller size. -/
def azVmC4 : AzureResource :=
  { name := "vm-app1", resource_type := "Microsoft.Compute/virtualMachines",
    location := "westus", resource_group := "rg", resource_id := "vm-id",
    properties := [("vm_size", .str "Standard_B1s")] }

/-- C9 witness: a declarative storage account whose `name` references an
undeclared variable (so its derived resource name is the unresolved
marker). -/
def tfUnresolvedC9 : TerraformResource :=
  { terraform_type := "azurerm_storage_account", name := "acct",
    config := [("name", .str "$\x7bvar.name\x7d")] }

/-- C9 witness: a live record that stays the sole (informational)
difference whether or not the unresolved-name resource is present. -/
def azC9 : AzureResource :=
  { name := "webstore", resource_type := "Microsoft.Storage/storageAccounts",
    location := "eastus", resource_group := "rg", resource_id := "c9-id" }

/-- Python string `<=` as a relation, for stating sortedness. -/
def strle (a b : String) : Prop := strLe a b = true

instance : DecidableRel strle := fun a b => inferInstanceAs (Decidable (strLe a b = true))

/-- C5 failing input: declarative vnet whose `location` stayed the raw
unresolved interpolation `$\x7bvar.region\x7d` (undeclared variable, no
caller override). -/
def tfVnetC5x : TerraformResource :=
  { terraform_type := "azurerm_virtual_network", name := "vnet",
    config := [("name", .str "vnet-x"), ("location", .str "$\x7bvar.region\x7d")] }

/-- C5 failing input: the matched live vnet at `eastus`. -/
def azVnetC5x : AzureResource :=
  { name := "vnet-x", resource_type := "Microsoft.Network/virtualNetworks",
    location := "eastus", resource_group := "rg", resource_id := "x-id" }

/-! ## Helper lemmas about the dict model -/

theorem lookup_cons_str {α : Type} (k k1 : String) (v1 : α) (tl : List (String × α)) :
    List.lookup k ((k1, v1) :: tl) = if k = k1 then some v1 else List.lookup k tl := by
  by_cases h : k = k1
  · simp [List.lookup, h]
  · rw [List.lookup_cons, show (k == k1) = false from beq_false_of_ne h]
    simp [h]

theorem lookup_pySet {α : Type} (d : List (String × α)) (k k' : String) (v : α) :
    (pySet d k v).lookup k' = if k' = k then some v else d.lookup k' := by
  induction d with
  | nil =>
    by_cases h : k' = k <;> simp [pySet, lookup_cons_str, List.lookup_nil, h]
  | cons hd tl ih =>
    obtain ⟨k1, v1⟩ := hd
    by_cases h1 : k1 = k
    · subst h1
      by_cases h2 : k' = k1 <;> simp [pySet, lookup_cons_str, h2]
    · have hstep : pySet ((k1, v1) :: tl) k v = (k1, v1) :: pySet tl k v := by
        simp [pySet, h1]
      rw [hstep, lookup_cons_str, lookup_cons_str]
      by_cases h2 : k' = k1
      · subst h2
        simp [h1, Ne.symm h1]
      · by_cases h3 : k' = k
        · subst h3
          simp [Ne.symm h1, ih]
        · simp [h2, h3, ih]

theorem indexLookup_getD {α : Type} (idx : List (String × List (String × α))) (t n : String) :
    ((idx.lookup t).getD []).lookup n = ComparisonEngine.indexLookup idx t n := by
  cases h : idx.lookup t <;> simp [ComparisonEngine.indexLookup, h, List.lookup_nil]

theorem indexLookup_insert2 {α : Type} (tk nk : α → String)
    (idx : List (String × List (String × α))) (r : α) (t n : String) :
    ComparisonEngine.indexLookup (insert2 tk nk idx r) t n =
      if tk r = t ∧ nk r = n then some r else ComparisonEngine.indexLookup idx t n := by
  rw [← indexLookup_getD, ← indexLookup_getD]
  unfold insert2
  rw [lookup_pySet]
  by_cases ht : t = tk r
  · subst ht
    rw [if_pos rfl, Option.getD_some, lookup_pySet]
    by_cases hn : n = nk r
    · rw [if_pos hn, if_pos ⟨rfl, hn.symm⟩]
    · rw [if_neg hn, if_neg (fun hc => hn hc.2.symm)]
  · rw [if_neg ht, if_neg (fun hc : tk r = t ∧ nk r = n => ht hc.1.symm)]

theorem indexLookup_foldl {α : Type} (tk nk : α → String) (rs : List α) (t n : String) :
    ComparisonEngine.indexLookup (rs.foldl (insert2 tk nk) []) t n =
      rs.reverse.find? (fun r => tk r == t && nk r == n) := by
  induction rs using List.reverseRecOn with
  | nil => simp [ComparisonEngine.indexLookup, List.lookup_nil]
  | append_singleton l r ih =>
    rw [List.foldl_append, List.foldl_cons, List.foldl_nil, indexLookup_insert2,
      List.reverse_append]
    simp only [List.reverse_singleton, List.singleton_append, List.find?_cons]
    by_cases hc : tk r = t ∧ nk r = n
    · rw [if_pos hc]
      have : (tk r == t && nk r == n) = true := by
        simp [hc.1, hc.2]
      rw [this]
    · rw [if_neg hc]
      have : (tk r == t && nk r == n) = false := by
        rcases not_and_or.mp hc with h | h <;> simp [beq_false_of_ne h, h]
      rw [this, ih]

theorem buildAzureIndex_eq_foldl (rs : List AzureResource) :
    ComparisonEngine.buildAzureIndex rs =
      rs.foldl (insert2 (fun r => r.resource_type) (fun r => pyLower r.name)) [] := rfl

theorem buildTerraformIndex_eq_foldl (rs : List TerraformResource) :
    ComparisonEngine.buildTerraformIndex rs =
      rs.foldl (insert2 (fun r => canonicalType r.terraform_type) ComparisonEngine.tfKeyName) [] := rfl

/-! ## Claim C3 -/

/-- C3: inventory matching is exact on canonical type and case-insensitive
on resource name, with no fuzzy matching, and within either side's index a
colliding (canonical type, lower-cased name) key keeps the last-inserted
record: looking up either index returns the **last** record of the input
whose canonical type equals the key's type and whose lower-cased name
equals the key's name.  Concretely, declarative storage account `MyAcct`
matches the live storage record `myacct` (so the only reported difference
is the unmatched key vault), and against a live inventory holding only a
key vault named `MyAcct` it matches nothing. -/
theorem C3_matching_exact_type_case_insensitive_name :
    (∀ (rs : List AzureResource) (t n : String),
      ComparisonEngine.indexLookup (ComparisonEngine.buildAzureIndex rs) t n =
        rs.reverse.find? (fun r => r.resource_type == t && pyLower r.name == n)) ∧
    (∀ (rs : List TerraformResource) (t n : String),
      ComparisonEngine.indexLookup (ComparisonEngine.buildTerraformIndex rs) t n =
        rs.reverse.find? (fun r => canonicalType r.terraform_type == t &&
          ComparisonEngine.tfKeyName r == n)) ∧
    (ComparisonEngine.compare "rg" [azKvC3, azSaC3] [tfMyAcct]).matched_count = 1 ∧
    (ComparisonEngine.compare "rg" [azKvC3, azSaC3] [tfMyAcct]).differences.map
      (fun d => (d.difference_type, d.resource_name, d.resource_type)) =
      [(.missing_in_terraform, "MyAcct", "Microsoft.KeyVault/vaults")] ∧
    (ComparisonEngine.compare "rg" [azKvC3] [tfMyAcct]).differences.map
      (fun d => (d.difference_type, d.resource_name)) =
      [(.missing_in_azure, "MyAcct"), (.missing_in_terraform, "MyAcct")] := by
  refine ⟨?_, ?_, rfl, rfl, rfl⟩
  · intro rs t n
    rw [buildAzureIndex_eq_foldl, indexLookup_foldl]
  · intro rs t n
    rw [buildTerraformIndex_eq_foldl, indexLookup_foldl]

/-! ## Claim C1 -/

/-- C1 (code bug): the direct parameter-mapping loop filters the unresolved
`account_tier` out (`_is_variable`), but the storage-account SKU compositing
of `_handle_special_cases` re-reads it from the raw config without that
check, so the generated Create action's `--sku` parameter carries the
unresolved variable expression `${var.tier}_LRS` — a value the generator's
own `_is_variable` classifies as unresolved. -/
theorem C1_unresolved_reaches_parameter :
    (CliCommandGenerator.generateCommands ⟨"rg", Option.none⟩
        (ComparisonEngine.compare "rg" [] [tfSaC1])).map
      (fun c => (c.action, c.parameters.lookup "--sku")) =
      [("create", some "$\x7bvar.tier\x7d_LRS")] ∧
    strContains "$\x7bvar.tier\x7d_LRS" "$\x7b" = true ∧
    CliCommandGenerator.isVariable (.str "$\x7bvar.tier\x7d_LRS") = true :=
  ⟨rfl, rfl, rfl⟩

/-! ## Claim C6 -/

/-- C6 (code bug): the comparison side of Scenario C behaves as claimed
(one Drifted difference, risk MEDIUM, a single `location` field difference
carrying declarative `eastus` and live `westus2`), and with a subscription
id configured the synthesizer emits the one Update action carrying
`--location eastus`.  But without a subscription id the suppression test
`len(params) <= 3` still uses the threshold that assumes the
`--subscription` slot is occupied, so the very same drift produces **no**
action even though a parameter beyond identity/context resulted. -/
theorem C6_update_suppression_threshold :
    (ComparisonEngine.compare "rg" [azVnetC6] [tfVnetC6]).differences.map
      (fun d => (d.difference_type, d.risk_level,
        d.property_differences.map
          (fun p => (p.property_path, p.terraform_value, p.azure_value)))) =
      [(.property_drift, .medium, [("location", .str "eastus", .str "westus2")])] ∧
    (CliCommandGenerator.generateCommands ⟨"rg", some "sub-1"⟩
        (ComparisonEngine.compare "rg" [azVnetC6] [tfVnetC6])).map
      (fun c => (c.action, c.parameters.lookup "--location")) =
      [("update", some "eastus")] ∧
    CliCommandGenerator.generateCommands ⟨"rg", Option.none⟩
        (ComparisonEngine.compare "rg" [azVnetC6] [tfVnetC6]) = [] :=
  ⟨rfl, rfl, rfl⟩

/-! ## Claim C2 -/

theorem generateCreateCommand_action (g : CliCommandGenerator) (d : ResourceDifference)
    (c : CliCommand) (h : CliCommandGenerator.generateCreateCommand g d = some c) :
    c.action = "create" := by
  unfold CliCommandGenerator.generateCreateCommand at h
  dsimp only at h
  repeat' split at h
  all_goals first
    | exact Option.noConfusion h
    | (have hc := Option.some.inj h; subst hc; rfl)

theorem generateUpdateCommand_action (g : CliCommandGenerator) (d : ResourceDifference)
    (c : CliCommand) (h : CliCommandGenerator.generateUpdateCommand g d = some c) :
    c.action = "update" := by
  unfold CliCommandGenerator.generateUpdateCommand at h
  dsimp only at h
  repeat' split at h
  all_goals first
    | exact Option.noConfusion h
    | (have hc := Option.some.inj h; subst hc; rfl)

theorem generateCommands_eq_filterMap (g : CliCommandGenerator) (cr : ComparisonResult) :
    CliCommandGenerator.generateCommands g cr = cr.differences.filterMap (genFor g) := rfl

theorem genFor_length_le (g : CliCommandGenerator) (l : List ResourceDifference) :
    (l.filterMap (genFor g)).length ≤
      l.countP (fun d => decide (d.difference_type = .missing_in_azure)) +
      l.countP (fun d => decide (d.difference_type = .property_drift)) := by
  induction l with
  | nil => simp
  | cons a l ih =>
    rw [List.filterMap_cons, List.countP_cons, List.countP_cons]
    cases hfa : genFor g a with
    | none => simp only [hfa]; omega
    | some c =>
      have ha : (decide (a.difference_type = .missing_in_azure) = true) ∨
          (decide (a.difference_type = .property_drift) = true) := by
        unfold genFor at hfa
        by_cases h1 : a.difference_type = .missing_in_azure
        · exact Or.inl (by simp [h1])
        · by_cases h2 : a.difference_type = .property_drift
          · exact Or.inr (by simp [h2])
          · simp [h1, h2] at hfa
      simp only [hfa, List.length_cons]
      rcases ha with ha | ha <;> rw [ha] <;> simp <;> omega

/-- C2: for every comparison result, synthesis emits only create/update
actions (never a delete), at most one action per `missing_in_azure` or
`property_drift` difference, and differences of kind
`missing_in_terraform` contribute nothing (removing them from the input
leaves the output unchanged). -/
theorem C2_no_deletes_bounded_actions (g : CliCommandGenerator) (cr : ComparisonResult) :
    ((CliCommandGenerator.generateCommands g cr).all
      (fun c => c.action == "create" || c.action == "update")) = true ∧
    (CliCommandGenerator.generateCommands g cr).length ≤
      cr.differences.countP (fun d => decide (d.difference_type = .missing_in_azure)) +
      cr.differences.countP (fun d => decide (d.difference_type = .property_drift)) ∧
    CliCommandGenerator.generateCommands g
      { cr with differences := (cr.differences.filter (fun d => !decide (d.difference_type = .missing_in_terraform))) } =
      CliCommandGenerator.generateCommands g cr := by
  refine ⟨?_, ?_, ?_⟩
  · rw [List.all_eq_true]
    intro c hc
    rw [generateCommands_eq_filterMap, List.mem_filterMap] at hc
    obtain ⟨d, _, hd⟩ := hc
    unfold genFor at hd
    by_cases h1 : d.difference_type = .missing_in_azure
    · rw [if_pos h1] at hd
      simp [generateCreateCommand_action g d c hd]
    · rw [if_neg h1] at hd
      by_cases h2 : d.difference_type = .property_drift
      · rw [if_pos h2] at hd
        simp [generateUpdateCommand_action g d c hd]
      · simp [h2] at hd
  · rw [generateCommands_eq_filterMap]
    exact genFor_length_le g cr.differences
  · rw [generateCommands_eq_filterMap, generateCommands_eq_filterMap]
    simp only []
    induction cr.differences with
    | nil => rfl
    | cons a l ih =>
      by_cases h3 : a.difference_type = .missing_in_terraform
      · have hnone : genFor g a = Option.none := by
          unfold genFor
          simp [h3]
        simp [List.filter_cons, h3, List.filterMap_cons, hnone, ih]
      · simp [List.filter_cons, h3, List.filterMap_cons, ih]

/-! ## Claim C4 -/

theorem assessRisk_spec (ds : List PropertyDifference) :
    (ComparisonEngine.assessRisk ds = .high ↔ ∃ p ∈ ds, isHighRiskDiff p = true) ∧
    (ComparisonEngine.assessRisk ds = .medium ↔
      ((¬∃ p ∈ ds, isHighRiskDiff p = true) ∧ ∃ p ∈ ds, isMediumRiskDiff p = true)) ∧
    (ComparisonEngine.assessRisk ds = .low ↔
      ((¬∃ p ∈ ds, isHighRiskDiff p = true) ∧ ¬∃ p ∈ ds, isMediumRiskDiff p = true)) := by
  unfold ComparisonEngine.assessRisk
  cases hf : ds.find? (fun d => ComparisonEngine.high_risk_properties.contains (leafName d.property_path)) with
  | some d =>
    have hex : ∃ p ∈ ds, isHighRiskDiff p = true :=
      ⟨d, List.mem_of_find?_eq_some hf, List.find?_some hf⟩
    refine ⟨by simp [hex], ?_, ?_⟩ <;> simp [hex]
  | none =>
    have hnex : ¬∃ p ∈ ds, isHighRiskDiff p = true := by
      rw [List.find?_eq_none] at hf
      rintro ⟨p, hp, hhp⟩
      exact hf p hp hhp
    cases hm : ds.find? (fun d => ComparisonEngine.medium_risk_properties.contains (leafName d.property_path)) with
    | some d =>
      have hex : ∃ p ∈ ds, isMediumRiskDiff p = true :=
        ⟨d, List.mem_of_find?_eq_some hm, List.find?_some hm⟩
      refine ⟨by simp [hnex], by simp [hnex, hex], by simp [hex]⟩
    | none =>
      have hnexm : ¬∃ p ∈ ds, isMediumRiskDiff p = true := by
        rw [List.find?_eq_none] at hm
        rintro ⟨p, hp, hhp⟩
        exact hm p hp hhp
      refine ⟨by simp [hnex], by simp [hnexm], by simp [hnex, hnexm]⟩

theorem mem_foldl_compareStep (idx : List (String × List (String × AzureResource)))
    (l : List TerraformResource) :
    ∀ (acc : ComparisonEngine.CompareAcc) (d : ResourceDifference),
      d ∈ (l.foldl (ComparisonEngine.compareStep idx) acc).differences →
      d ∈ acc.differences ∨ (∃ r, d = ComparisonEngine.missingAzureDiff r) ∨
        (∃ r az, d = ComparisonEngine.driftDiff r az) := by
  induction l with
  | nil => intro acc d h; exact Or.inl h
  | cons r l ih =>
    intro acc d h
    rw [List.foldl_cons] at h
    rcases ih _ d h with h' | h' | h'
    · unfold ComparisonEngine.compareStep at h'
      dsimp only at h'
      repeat' split at h'
      all_goals try (exact Or.inl h')
      all_goals rw [List.mem_append] at h'
      all_goals rcases h' with h' | h'
      · exact Or.inl h'
      · exact Or.inr (Or.inl ⟨r, List.mem_singleton.mp h'⟩)
      · exact Or.inl h'
      · exact Or.inr (Or.inr ⟨r, _, List.mem_singleton.mp h'⟩)
    · exact Or.inr (Or.inl h')
    · exact Or.inr (Or.inr h')

theorem mem_foldl_acc_append {α β : Type _} (f : α → List β) (l : List α) :
    ∀ (init : List β) (x : β),
      x ∈ l.foldl (fun acc p => acc ++ f p) init ↔ x ∈ init ∨ ∃ p ∈ l, x ∈ f p := by
  induction l with
  | nil => simp
  | cons a l ih =>
    intro init x
    rw [List.foldl_cons, ih, List.mem_append]
    constructor
    · rintro (⟨h | h⟩ | ⟨p, hp, hx⟩)
      · exact Or.inl h
      · exact Or.inr ⟨a, List.mem_cons_self a l, h⟩
      · exact Or.inr ⟨p, List.mem_cons_of_mem a hp, hx⟩
    · rintro (h | ⟨p, hp, hx⟩)
      · exact Or.inl (Or.inl h)
      · rcases List.mem_cons.mp hp with rfl | hp
        · exact Or.inl (Or.inr hx)
        · exact Or.inr ⟨p, hp, hx⟩

theorem mem_foldl_ite_append {α β : Type _} (c : α → Bool) (g : α → β) (l : List α) :
    ∀ (init : List β) (x : β),
      x ∈ l.foldl (fun acc q => if c q then acc else acc ++ [g q]) init ↔
        x ∈ init ∨ ∃ q ∈ l, c q = false ∧ x = g q := by
  induction l with
  | nil => simp
  | cons a l ih =>
    intro init x
    rw [List.foldl_cons]
    by_cases hc : c a
    · rw [if_pos hc, ih]
      constructor
      · rintro (h | ⟨q, hq, hcq, hx⟩)
        · exact Or.inl h
        · exact Or.inr ⟨q, List.mem_cons_of_mem a hq, hcq, hx⟩
      · rintro (h | ⟨q, hq, hcq, hx⟩)
        · exact Or.inl h
        · rcases List.mem_cons.mp hq with rfl | hq
          · rw [hc] at hcq; exact absurd hcq (by simp)
          · exact Or.inr ⟨q, hq, hcq, hx⟩
    · rw [if_neg hc, ih]
      constructor
      · rintro (h | ⟨q, hq, hcq, hx⟩)
        · rcases List.mem_append.mp h with h | h
          · exact Or.inl h
          · exact Or.inr ⟨a, List.mem_cons_self a l, Bool.of_not_eq_true hc, List.mem_singleton.mp h⟩
        · exact Or.inr ⟨q, List.mem_cons_of_mem a hq, hcq, hx⟩
      · rintro (h | ⟨q, hq, hcq, hx⟩)
        · exact Or.inl (List.mem_append.mpr (Or.inl h))
        · rcases List.mem_cons.mp hq with rfl | hq
          · exact Or.inl (List.mem_append.mpr (Or.inr (by simp [hx])))
          · exact Or.inr ⟨q, hq, hcq, hx⟩

theorem mem_missingInTfDiffs (idx : List (String × List (String × AzureResource)))
    (m : List String) (d : ResourceDifference)
    (h : d ∈ ComparisonEngine.missingInTfDiffs idx m) :
    ∃ t az, d = ComparisonEngine.missingTfDiff t az := by
  unfold ComparisonEngine.missingInTfDiffs at h
  rw [mem_foldl_acc_append] at h
  rcases h with h | ⟨p, _, hx⟩
  · exact absurd h (List.not_mem_nil d)
  · rw [mem_foldl_ite_append] at hx
    rcases hx with hx | ⟨q, _, _, hx⟩
    · exact absurd hx (List.not_mem_nil d)
    · exact ⟨p.1, q.2, hx⟩

/-- C4: risk assignment in every comparison result.  A `missing_in_azure`
difference is always MEDIUM and a `missing_in_terraform` difference always
LOW; a drifted difference is HIGH exactly when some field difference's leaf
name is in the high-risk set, MEDIUM exactly when none is high-risk but
some leaf name is in the medium-risk set, and LOW exactly when neither
set is hit (so a resource drifting in both `location` and `size` is HIGH,
`size` being high-risk). -/
theorem C4_risk_levels (rg : String) (az : List AzureResource) (tfs : List TerraformResource) :
    ∀ d ∈ (ComparisonEngine.compare rg az tfs).differences,
      (d.difference_type = .missing_in_azure → d.risk_level = .medium) ∧
      (d.difference_type = .missing_in_terraform → d.risk_level = .low) ∧
      (d.difference_type = .property_drift →
        ((d.risk_level = .high ↔ ∃ p ∈ d.property_differences, isHighRiskDiff p = true) ∧
         (d.risk_level = .medium ↔
           ((¬∃ p ∈ d.property_differences, isHighRiskDiff p = true) ∧
             ∃ p ∈ d.property_differences, isMediumRiskDiff p = true)) ∧
         (d.risk_level = .low ↔
           ((¬∃ p ∈ d.property_differences, isHighRiskDiff p = true) ∧
             ¬∃ p ∈ d.property_differences, isMediumRiskDiff p = true)))) := by
  intro d hd
  unfold ComparisonEngine.compare at hd
  dsimp only at hd
  rw [List.mem_append] at hd
  rcases hd with hd | hd
  · rcases mem_foldl_compareStep _ _ _ _ hd with h | ⟨r, rfl⟩ | ⟨r, azr, rfl⟩
    · exact absurd h (List.not_mem_nil d)
    · exact ⟨fun _ => rfl,
        fun h => absurd h (by simp [ComparisonEngine.missingAzureDiff]),
        fun h => absurd h (by simp [ComparisonEngine.missingAzureDiff])⟩
    · refine ⟨fun h => absurd h (by simp [ComparisonEngine.driftDiff]),
        fun h => absurd h (by simp [ComparisonEngine.driftDiff]), fun _ => ?_⟩
      have hr : (ComparisonEngine.driftDiff r azr).risk_level =
          ComparisonEngine.assessRisk (ComparisonEngine.driftDiff r azr).property_differences := rfl
      rw [hr]
      exact assessRisk_spec _
  · rcases mem_missingInTfDiffs _ _ _ hd with ⟨t, azr, rfl⟩
    exact ⟨fun h => absurd h (by simp [ComparisonEngine.missingTfDiff]),
      fun _ => rfl,
      fun h => absurd h (by simp [ComparisonEngine.missingTfDiff])⟩

/-- C4 witness: on the location-and-size drift the theorem yields risk HIGH. -/
theorem C4_risk_levels_witness :
    ComparisonEngine.driftDiff tfVmC4 azVmC4 ∈
      (ComparisonEngine.compare "rg" [azVmC4] [tfVmC4]).differences ∧
    (ComparisonEngine.driftDiff tfVmC4 azVmC4).risk_level = .high := by
  have heq : (ComparisonEngine.compare "rg" [azVmC4] [tfVmC4]).differences =
      [ComparisonEngine.driftDiff tfVmC4 azVmC4] := rfl
  have hd : ComparisonEngine.driftDiff tfVmC4 azVmC4 ∈
      (ComparisonEngine.compare "rg" [azVmC4] [tfVmC4]).differences := by
    rw [heq]; exact List.mem_singleton.mpr rfl
  refine ⟨hd, ?_⟩
  have h := (C4_risk_levels "rg" [azVmC4] [tfVmC4] _ hd).2.2 rfl
  refine h.1.mpr ⟨⟨"size", .str "Standard_B2s", .str "Standard_B1s",
    "Property \x27size\x27 differs"⟩, ?_, rfl⟩
  have hp : (ComparisonEngine.driftDiff tfVmC4 azVmC4).property_differences =
      [⟨"location", .str "eastus", .str "westus", "Property \x27location\x27 differs"⟩,
       ⟨"size", .str "Standard_B2s", .str "Standard_B1s", "Property \x27size\x27 differs"⟩] := rfl
  rw [hp]
  exact List.mem_cons.mpr (Or.inr (List.mem_singleton.mpr rfl))

/-! ## Claim C9 -/

theorem compareStep_skip (idx : List (String × List (String × AzureResource)))
    (acc : ComparisonEngine.CompareAcc) (r : TerraformResource)
    (h : strContains (ComparisonEngine.tfKeyName r) "<variable:" = true) :
    ComparisonEngine.compareStep idx acc r = acc := by
  unfold ComparisonEngine.compareStep
  dsimp only
  rw [if_pos h]

/-- C9: a declarative resource whose comparison key still carries the
unresolved-variable marker is skipped by the matching loop entirely: the
comparison result's difference list and matched count are exactly those of
the same run without that resource (it neither matches, nor is reported
missing, nor unmatches any live record), while the raw declarative count
still includes it. -/
theorem C9_unresolved_name_excluded (rg : String) (az : List AzureResource)
    (tfs₁ tfs₂ : List TerraformResource) (r : TerraformResource)
    (h : strContains (ComparisonEngine.tfKeyName r) "<variable:" = true) :
    (ComparisonEngine.compare rg az (tfs₁ ++ r :: tfs₂)).differences =
      (ComparisonEngine.compare rg az (tfs₁ ++ tfs₂)).differences ∧
    (ComparisonEngine.compare rg az (tfs₁ ++ r :: tfs₂)).matched_count =
      (ComparisonEngine.compare rg az (tfs₁ ++ tfs₂)).matched_count ∧
    (ComparisonEngine.compare rg az (tfs₁ ++ r :: tfs₂)).terraform_resource_count =
      (ComparisonEngine.compare rg az (tfs₁ ++ tfs₂)).terraform_resource_count + 1 := by
  unfold ComparisonEngine.compare
  dsimp only
  rw [List.foldl_append, List.foldl_append, List.foldl_cons, compareStep_skip _ _ _ h]
  refine ⟨rfl, rfl, by simp; omega⟩

theorem C9_unresolved_name_excluded_witness :
    strContains (ComparisonEngine.tfKeyName tfUnresolvedC9) "<variable:" = true ∧
    (ComparisonEngine.compare "rg" [azC9] ([] ++ tfUnresolvedC9 :: [])).differences =
      (ComparisonEngine.compare "rg" [azC9] ([] ++ [])).differences :=
  ⟨rfl, (C9_unresolved_name_excluded "rg" [azC9] [] [] tfUnresolvedC9 rfl).1⟩

/-! ## Claim C7 -/

theorem lexLe_total : ∀ a b : List Char, lexLe a b = true ∨ lexLe b a = true
  | [], _ => Or.inl rfl
  | _ :: _, [] => Or.inr rfl
  | x :: xs, y :: ys => by
    unfold lexLe
    rcases lt_trichotomy x y with hxy | rfl | hxy
    · left; simp [hxy]
    · simp only [lt_self_iff_false, if_false]
      exact lexLe_total xs ys
    · right; simp [hxy]

theorem lexLe_trans : ∀ a b c : List Char,
    lexLe a b = true → lexLe b c = true → lexLe a c = true
  | [], _, _, _, _ => rfl
  | _ :: _, [], _, hab, _ => by simp [lexLe] at hab
  | _ :: _, _ :: _, [], _, hbc => by simp [lexLe] at hbc
  | x :: xs, y :: ys, z :: zs, hab, hbc => by
    unfold lexLe at hab hbc ⊢
    rcases lt_trichotomy x y with hxy | rfl | hxy
    · rcases lt_trichotomy y z with hyz | rfl | hyz
      · simp [lt_trans hxy hyz]
      · simp [hxy]
      · rw [if_neg (lt_asymm hyz), if_pos hyz] at hbc
        exact absurd hbc (by simp)
    · rw [if_neg (lt_irrefl x), if_neg (lt_irrefl x)] at hab
      rcases lt_trichotomy x z with hxz | rfl | hxz
      · simp [hxz]
      · rw [if_neg (lt_irrefl x), if_neg (lt_irrefl x)] at hbc ⊢
        exact lexLe_trans xs ys zs hab hbc
      · rw [if_neg (lt_asymm hxz), if_pos hxz] at hbc
        exact absurd hbc (by simp)
    · rw [if_neg (lt_asymm hxy), if_pos hxy] at hab
      exact absurd hab (by simp)

theorem lexLe_antisymm : ∀ a b : List Char,
    lexLe a b = true → lexLe b a = true → a = b
  | [], [], _, _ => rfl
  | [], _ :: _, _, hba => by simp [lexLe] at hba
  | _ :: _, [], hab, _ => by simp [lexLe] at hab
  | x :: xs, y :: ys, hab, hba => by
    unfold lexLe at hab hba
    rcases lt_trichotomy x y with hxy | rfl | hxy
    · rw [if_neg (lt_asymm hxy), if_pos hxy] at hba
      exact absurd hba (by simp)
    · rw [if_neg (lt_irrefl x), if_neg (lt_irrefl x)] at hab hba
      rw [lexLe_antisymm xs ys hab hba]
    · rw [if_neg (lt_asymm hxy), if_pos hxy] at hab
      exact absurd hab (by simp)

theorem strle_isTotal : IsTotal String strle := ⟨fun a b => lexLe_total a.data b.data⟩

theorem strle_isTrans : IsTrans String strle := ⟨fun a b c => lexLe_trans a.data b.data c.data⟩

theorem strle_isAntisymm : IsAntisymm String strle :=
  ⟨fun a b hab hba => String.ext (lexLe_antisymm a.data b.data hab hba)⟩

theorem orderedInsert_map_str (a : String) (l : List String) :
    List.orderedInsert vle (.str a) (l.map Value.str) =
      (List.orderedInsert strle a l).map Value.str := by
  induction l with
  | nil => rfl
  | cons b l ih =>
    simp only [List.map_cons, List.orderedInsert]
    by_cases h : strle a b
    · have hv : vle (Value.str a) (Value.str b) := h
      rw [if_pos h, if_pos hv]
      simp
    · have hv : ¬vle (Value.str a) (Value.str b) := h
      rw [if_neg h, if_neg hv, ih]
      simp

theorem insertionSort_map_str (l : List String) :
    List.insertionSort vle (l.map Value.str) = (List.insertionSort strle l).map Value.str := by
  induction l with
  | nil => rfl
  | cons a l ih => simp only [List.map_cons, List.insertionSort, ih, orderedInsert_map_str]

theorem normalizeList_map_str (l : List String) :
    normalizeList (l.map Value.str) = (l.map (fun s => pyStrip (pyLower s))).map Value.str := by
  induction l with
  | nil => rfl
  | cons a l ih => simp [normalizeList, normalizeValue, ih]

theorem valuesEqual_strList_refl (l : List String) :
    valuesEqual (.list (l.map Value.str)) (.list (l.map Value.str)) = true := by
  have hlist : ∀ m : List String, valuesEqualList (m.map Value.str) (m.map Value.str) = true := by
    intro m
    induction m with
    | nil => rfl
    | cons a m ih => simp [valuesEqualList, valuesEqual, pyEq, ih]
  simp [valuesEqual, hlist l]

theorem normalizeValue_strList (l : List String) :
    normalizeValue (.list (l.map Value.str)) =
      .list ((List.insertionSort strle (l.map (fun s => pyStrip (pyLower s)))).map Value.str) := by
  rw [show normalizeValue (.list (l.map Value.str)) =
    .list (List.insertionSort vle (normalizeList (l.map Value.str))) from rfl]
  rw [normalizeList_map_str, insertionSort_map_str]

/-- C7: normalization makes sequence comparison order- and
case-insensitive.  Whenever two string lists have the same multiset of
lower-cased, stripped elements, their normalized forms (sorted lists of the
normalized elements) are equal, and `_values_equal` deems them deep-equal. -/
theorem C7_normalization_order_insensitive (a b : List String)
    (h : (a.map (fun s => pyStrip (pyLower s))).Perm (b.map (fun s => pyStrip (pyLower s)))) :
    normalizeValue (.list (a.map Value.str)) = normalizeValue (.list (b.map Value.str)) ∧
    valuesEqual (normalizeValue (.list (a.map Value.str)))
      (normalizeValue (.list (b.map Value.str))) = true := by
  have key : List.insertionSort strle (a.map (fun s => pyStrip (pyLower s))) =
      List.insertionSort strle (b.map (fun s => pyStrip (pyLower s))) := by
    have hT := strle_isTotal
    have hTr := strle_isTrans
    have hA := strle_isAntisymm
    exact List.eq_of_perm_of_sorted
      (((List.perm_insertionSort strle _).trans h).trans
        (List.perm_insertionSort strle _).symm)
      (List.sorted_insertionSort strle _)
      (List.sorted_insertionSort strle _)
  have heq : normalizeValue (.list (a.map Value.str)) = normalizeValue (.list (b.map Value.str)) := by
    rw [normalizeValue_strList, normalizeValue_strList, key]
  refine ⟨heq, ?_⟩
  rw [heq, normalizeValue_strList]
  exact valuesEqual_strList_refl _

/-- C7 witness: `["b","a"]` and `["a","B"]` normalize-equal. -/
theorem C7_normalization_order_insensitive_witness :
    (["b", "a"].map (fun s => pyStrip (pyLower s))).Perm
      (["a", "B"].map (fun s => pyStrip (pyLower s))) ∧
    normalizeValue (.list (["b", "a"].map Value.str)) =
      normalizeValue (.list (["a", "B"].map Value.str)) := by
  have h : (["b", "a"].map (fun s => pyStrip (pyLower s))).Perm
      (["a", "B"].map (fun s => pyStrip (pyLower s))) := by decide
  exact ⟨h, (C7_normalization_order_insensitive ["b", "a"] ["a", "B"] h).1⟩

/-! ## Shared machinery for the field-projection and tag-comparison claims -/

theorem lookup_some_mem_keys {α : Type} (l : List (String × α)) (k : String) (v : α)
    (h : l.lookup k = some v) : k ∈ l.map Prod.fst := by
  induction l with
  | nil => simp [List.lookup_nil] at h
  | cons hd tl ih =>
    obtain ⟨k1, v1⟩ := hd
    rw [lookup_cons_str] at h
    by_cases hk : k = k1
    · simp [hk]
    · rw [if_neg hk] at h
      simp [ih h]

theorem lookup_some_pair_mem {α : Type} (l : List (String × α)) (k : String) (v : α)
    (h : l.lookup k = some v) : (k, v) ∈ l := by
  induction l with
  | nil => simp [List.lookup_nil] at h
  | cons hd tl ih =>
    obtain ⟨k1, v1⟩ := hd
    rw [lookup_cons_str] at h
    by_cases hk : k = k1
    · rw [if_pos hk] at h
      obtain rfl := Option.some.inj h
      simp [hk]
    · rw [if_neg hk] at h
      exact List.mem_cons_of_mem _ (ih h)

theorem keys_nodup_val_eq {α : Type} (l : List (String × α))
    (h : (l.map Prod.fst).Nodup) (k : String) (v1 v2 : α)
    (h1 : (k, v1) ∈ l) (h2 : (k, v2) ∈ l) : v1 = v2 := by
  induction l with
  | nil => cases h1
  | cons hd tl ih =>
    rw [List.map_cons, List.nodup_cons] at h
    rcases List.mem_cons.mp h1 with e1 | m1 <;> rcases List.mem_cons.mp h2 with e2 | m2
    · rw [← e2] at e1
      exact congrArg Prod.snd e1
    · exfalso
      apply h.1
      have hkmem : k ∈ List.map Prod.fst tl := List.mem_map_of_mem Prod.fst m2
      rw [← e1]
      exact hkmem
    · exfalso
      apply h.1
      have hkmem : k ∈ List.map Prod.fst tl := List.mem_map_of_mem Prod.fst m1
      rw [← e2]
      exact hkmem
    · exact ih h.2 m1 m2

theorem string_append_left_cancel {a b c : String} (h : a ++ b = a ++ c) : b = c := by
  have hd : a.data ++ b.data = a.data ++ c.data := congrArg String.data h
  exact String.ext (List.append_cancel_left hd)

theorem beginsWith_append (p : List Char) : ∀ (rest : List Char), beginsWith (p ++ rest) p = true := by
  induction p with
  | nil => intro rest; cases rest <;> rfl
  | cons c cs ih => intro rest; simp [beginsWith, ih rest]

theorem mappingFor_cases (t : String) :
    ComparisonEngine.mappingFor t = [] ∨
      ComparisonEngine.mappingFor t ∈ ComparisonEngine.PROPERTY_MAPPINGS.map Prod.snd := by
  unfold ComparisonEngine.mappingFor
  cases h : ComparisonEngine.PROPERTY_MAPPINGS.lookup t with
  | none => exact Or.inl rfl
  | some m =>
    right
    rw [Option.getD_some]
    exact List.mem_map_of_mem Prod.snd (lookup_some_pair_mem _ _ _ h)

theorem mappingFor_keys_nodup (t : String) :
    ((ComparisonEngine.mappingFor t).map Prod.fst).Nodup := by
  rcases mappingFor_cases t with h | h
  · rw [h]; exact List.nodup_nil
  · have hall : ∀ m ∈ ComparisonEngine.PROPERTY_MAPPINGS.map Prod.snd,
        (m.map Prod.fst).Nodup := by decide
    exact hall _ h

theorem tagPath_not_mapping_key (k t prop : String)
    (hmem : prop ∈ (ComparisonEngine.mappingFor t).map Prod.fst) :
    "tags." ++ k ≠ prop := by
  intro heq
  have hbw : beginsWith prop.data ("tags.").data = true := by
    rw [← heq]
    exact beginsWith_append ("tags.").data k.data
  have hnb : ∀ m ∈ ComparisonEngine.PROPERTY_MAPPINGS.map Prod.snd,
      ∀ p ∈ m.map Prod.fst, beginsWith p.data ("tags.").data = false := by decide
  rcases mappingFor_cases t with h | h
  · rw [h] at hmem
    exact absurd hmem (List.not_mem_nil _)
  · rw [hnb _ h _ hmem] at hbw
    exact absurd hbw (by simp)

theorem projectField_some_shape (tf : TerraformResource) (az : AzureResource)
    (pm : String × String) (d : PropertyDifference)
    (h : ComparisonEngine.projectField tf az pm = some d) :
    d = { property_path := pm.1,
          terraform_value := dictGetD tf.config pm.1 Value.none,
          azure_value := getNestedValue az pm.2,
          description := "Property \x27" ++ pm.1 ++ "\x27 differs" } := by
  unfold ComparisonEngine.projectField at h
  dsimp only at h
  repeat' split at h
  all_goals first
    | exact Option.noConfusion h
    | exact (Option.some.inj h).symm

theorem projectField_none_of_skip (tf : TerraformResource) (az : AzureResource)
    (pm : String × String)
    (h : (dictGetD tf.config pm.1 Value.none).isNone = true ∨
      ComparisonEngine.isUnresolvedMarker (dictGetD tf.config pm.1 Value.none) = true ∨
      valuesEqual (normalizeValue (dictGetD tf.config pm.1 Value.none))
        (normalizeValue (getNestedValue az pm.2)) = true) :
    ComparisonEngine.projectField tf az pm = Option.none := by
  unfold ComparisonEngine.projectField
  dsimp only
  rcases h with h | h | h
  · rw [if_pos h]
  · by_cases h1 : (dictGetD tf.config pm.1 Value.none).isNone = true
    · rw [if_pos h1]
    · rw [if_neg h1, if_pos h]
  · by_cases h1 : (dictGetD tf.config pm.1 Value.none).isNone = true
    · rw [if_pos h1]
    · rw [if_neg h1]
      by_cases h2 : ComparisonEngine.isUnresolvedMarker (dictGetD tf.config pm.1 Value.none) = true
      · rw [if_pos h2]
      · rw [if_neg h2, if_pos h]

theorem projectField_some_of_emit (tf : TerraformResource) (az : AzureResource)
    (pm : String × String)
    (h1 : (dictGetD tf.config pm.1 Value.none).isNone = false)
    (h2 : ComparisonEngine.isUnresolvedMarker (dictGetD tf.config pm.1 Value.none) = false)
    (h3 : valuesEqual (normalizeValue (dictGetD tf.config pm.1 Value.none))
      (normalizeValue (getNestedValue az pm.2)) = false) :
    ComparisonEngine.projectField tf az pm =
      some { property_path := pm.1,
             terraform_value := dictGetD tf.config pm.1 Value.none,
             azure_value := getNestedValue az pm.2,
             description := "Property \x27" ++ pm.1 ++ "\x27 differs" } := by
  unfold ComparisonEngine.projectField
  dsimp only
  rw [if_neg (by simp [h1]), if_neg (by simp [h2]), if_neg (by simp [h3])]

theorem tagStep_some_shape (tfL azL : List (String × Value)) (k : String)
    (d : PropertyDifference) (h : ComparisonEngine.tagStep tfL azL k = some d) :
    d.property_path = "tags." ++ k ∧
    d.terraform_value = dictGetD tfL k Value.none ∧
    d.azure_value = (if (dictGetD azL k Value.none).isNone then Value.none
      else dictGetD azL k Value.none) := by
  unfold ComparisonEngine.tagStep at h
  dsimp only at h
  repeat' split at h
  all_goals first
    | exact Option.noConfusion h
    | (obtain rfl := (Option.some.inj h).symm; simp_all)

theorem countP_filterMap_zero {α β : Type _} (f : α → Option β) (p : β → Bool)
    (l : List α) (h : ∀ x ∈ l, ∀ d, f x = some d → p d = false) :
    (l.filterMap f).countP p = 0 := by
  rw [List.countP_eq_zero]
  intro d hd
  rw [List.mem_filterMap] at hd
  obtain ⟨x, hx, hfx⟩ := hd
  simp [h x hx d hfx]

theorem countP_filterMap_single {α β : Type _} (f : α → Option β) (p : β → Bool)
    (l : List α) (k : α) (hnd : l.Nodup) (hk : k ∈ l)
    (hother : ∀ x ∈ l, x ≠ k → ∀ d, f x = some d → p d = false)
    (hkd : ∀ d, f k = some d → p d = true) :
    (l.filterMap f).countP p = if (f k).isSome then 1 else 0 := by
  induction l with
  | nil => cases hk
  | cons a l ih =>
    rw [List.filterMap_cons]
    rcases List.mem_cons.mp hk with rfl | hk'
    · have hrest : (l.filterMap f).countP p = 0 := by
        apply countP_filterMap_zero
        intro x hx d hfx
        have hxk : x ≠ k := fun hxx => (List.nodup_cons.mp hnd).1 (hxx ▸ hx)
        exact hother x (List.mem_cons_of_mem _ hx) hxk d hfx
      cases hf : f k with
      | none => simp [hf, hrest]
      | some d =>
        rw [List.countP_cons, hrest, hkd d hf]
        simp [hf]
    · have hak : a ≠ k := fun h => (List.nodup_cons.mp hnd).1 (h ▸ hk')
      have ih' := ih (List.nodup_cons.mp hnd).2 hk'
        (fun x hx hxk d hfx => hother x (List.mem_cons_of_mem _ hx) hxk d hfx)
      cases hf : f a with
      | none => simp only [hf]; exact ih'
      | some d =>
        rw [List.countP_cons, hother a (List.mem_cons_self a l) hak d hf, ih']
        simp

theorem compareProperties_eq (tf : TerraformResource) (az : AzureResource) :
    ComparisonEngine.compareProperties tf az =
      ComparisonEngine.projLoop tf az ++
        ComparisonEngine.compareTags (dictGetD tf.config "tags" (.dict [])) az.tags := rfl

theorem compareTags_path_shape (tt : Value) (azts : List (String × String))
    (d : PropertyDifference) (h : d ∈ ComparisonEngine.compareTags tt azts) :
    ∃ k, d.property_path = "tags." ++ k := by
  unfold ComparisonEngine.compareTags at h
  dsimp only at h
  rw [List.mem_filterMap] at h
  obtain ⟨k, _, hk⟩ := h
  exact ⟨k, (tagStep_some_shape _ _ _ _ hk).1⟩

theorem projLoop_no_path (tf : TerraformResource) (az : AzureResource) (prop path : String)
    (hm : (prop, path) ∈ ComparisonEngine.mappingFor tf.terraform_type)
    (hnone : ComparisonEngine.projectField tf az (prop, path) = Option.none) :
    ∀ d ∈ ComparisonEngine.compareProperties tf az, d.property_path ≠ prop := by
  intro d hd
  rw [compareProperties_eq, List.mem_append] at hd
  rcases hd with hd | hd
  · unfold ComparisonEngine.projLoop at hd
    rw [List.mem_filterMap] at hd
    obtain ⟨pm, hpm, hf⟩ := hd
    obtain ⟨pa, pb⟩ := pm
    have hshape := projectField_some_shape tf az (pa, pb) d hf
    intro hpath
    have hp1 : pa = prop := by rw [hshape] at hpath; exact hpath
    subst hp1
    have hpb : pb = path :=
      keys_nodup_val_eq _ (mappingFor_keys_nodup _) pa pb path hpm hm
    subst hpb
    rw [hnone] at hf
    exact Option.noConfusion hf
  · obtain ⟨k, hk⟩ := compareTags_path_shape _ _ _ hd
    rw [hk]
    exact tagPath_not_mapping_key k tf.terraform_type prop (List.mem_map_of_mem Prod.fst hm)

/-! ## Claim C5 -/

/-- C5 (code bug): the per-field skip in `_compare_properties` tests only
for the `<variable:` marker, which `TerraformResource.__post_init__`
attaches to the *derived* resource name and location and which never
occurs inside `config`; the value an undeclared, override-less variable
actually leaves in a `config` field is the raw interpolation string (first
conjunct: `TerraformParser._resolve_value` passes it through unchanged),
which the generator's own `_is_variable` classifier recognizes as
unresolved (second conjunct) but the comparison skip does not (third
conjunct).  Such a genuinely unresolved declarative value is therefore
compared like a concrete one and **does** emit a `FieldDifference` — here
`location = "$\x7bvar.region\x7d"` against live `eastus` yields a Drifted
difference carrying the unresolved expression — contradicting the claim
that an unresolved variable reference produces no `FieldDifference`. -/
theorem C5_unresolved_config_value_compared :
    parserResolveValue [] [] (.str "$\x7bvar.region\x7d") = .str "$\x7bvar.region\x7d" ∧
    CliCommandGenerator.isVariable (.str "$\x7bvar.region\x7d") = true ∧
    ComparisonEngine.isUnresolvedMarker (.str "$\x7bvar.region\x7d") = false ∧
    (ComparisonEngine.compare "rg" [azVnetC5x] [tfVnetC5x]).differences.map
      (fun d => (d.difference_type,
        d.property_differences.map
          (fun p => (p.property_path, p.terraform_value, p.azure_value)))) =
      [(.property_drift,
        [("location", .str "$\x7bvar.region\x7d", .str "eastus")])] :=
  ⟨rfl, rfl, rfl, rfl⟩

/-! ## Claim C8 -/

theorem compareTags_eq (tt : Value) (azts : List (String × String)) :
    ComparisonEngine.compareTags tt azts =
      ((((ComparisonEngine.lowerDictV tt.asDict).map Prod.fst) ++
        ((ComparisonEngine.lowerDictS azts).map Prod.fst)).dedup).filterMap
        (ComparisonEngine.tagStep (ComparisonEngine.lowerDictV tt.asDict)
          (ComparisonEngine.lowerDictS azts)) := rfl

theorem tagStep_none_of_eq (tfL azL : List (String × Value)) (k : String)
    (h : pyEq (dictGetD tfL k Value.none) (dictGetD azL k Value.none) = true) :
    ComparisonEngine.tagStep tfL azL k = Option.none := by
  unfold ComparisonEngine.tagStep
  dsimp only
  rw [if_pos h]

theorem tagStep_none_of_tfNone (tfL azL : List (String × Value)) (k : String)
    (h : (dictGetD tfL k Value.none).isNone = true) :
    ComparisonEngine.tagStep tfL azL k = Option.none := by
  unfold ComparisonEngine.tagStep
  dsimp only
  by_cases he : pyEq (dictGetD tfL k Value.none) (dictGetD azL k Value.none) = true
  · rw [if_pos he]
  · rw [if_neg he, if_pos h]

theorem tagStep_isSome_of (tfL azL : List (String × Value)) (k : String)
    (h1 : (dictGetD tfL k Value.none).isNone = false)
    (h2 : pyEq (dictGetD tfL k Value.none) (dictGetD azL k Value.none) = false) :
    (ComparisonEngine.tagStep tfL azL k).isSome = true := by
  unfold ComparisonEngine.tagStep
  dsimp only
  rw [if_neg (by simp [h2]), if_neg (by simp [h1])]
  by_cases ha : (dictGetD azL k Value.none).isNone = true
  · rw [if_pos ha]; rfl
  · rw [if_neg ha]; rfl

theorem dictGetD_not_none_mem_keys (l : List (String × Value)) (k : String)
    (h : (dictGetD l k Value.none).isNone = false) : k ∈ l.map Prod.fst := by
  unfold dictGetD at h
  cases hl : l.lookup k with
  | none => rw [hl] at h; simp [Value.isNone] at h
  | some v => exact lookup_some_mem_keys l k v hl

/-- C8: tag comparison over the union of lower-cased tag keys.  A key whose
lower-cased declarative lookup is null (in particular a key present only on
the live side) yields no `FieldDifference`; a key present on both sides
with Python-equal values yields none either; and a key with a present
declarative value that is absent on the live side or differs yields exactly
one `FieldDifference` whose path is `tags.<key>`, carrying the declarative
value and the live value (null when absent). -/
theorem C8_tag_union (tf_tags : Value) (azure_tags : List (String × String)) (k : String) :
    (((dictGetD (ComparisonEngine.lowerDictV tf_tags.asDict) k Value.none).isNone = true) →
      (ComparisonEngine.compareTags tf_tags azure_tags).countP
        (fun d => d.property_path == "tags." ++ k) = 0) ∧
    ((pyEq (dictGetD (ComparisonEngine.lowerDictV tf_tags.asDict) k Value.none)
        (dictGetD (ComparisonEngine.lowerDictS azure_tags) k Value.none) = true) →
      (ComparisonEngine.compareTags tf_tags azure_tags).countP
        (fun d => d.property_path == "tags." ++ k) = 0) ∧
    (((dictGetD (ComparisonEngine.lowerDictV tf_tags.asDict) k Value.none).isNone = false) →
     (pyEq (dictGetD (ComparisonEngine.lowerDictV tf_tags.asDict) k Value.none)
        (dictGetD (ComparisonEngine.lowerDictS azure_tags) k Value.none) = false) →
      ((ComparisonEngine.compareTags tf_tags azure_tags).countP
        (fun d => d.property_path == "tags." ++ k) = 1 ∧
       ∃ d ∈ ComparisonEngine.compareTags tf_tags azure_tags,
         d.property_path = "tags." ++ k ∧
         d.terraform_value = dictGetD (ComparisonEngine.lowerDictV tf_tags.asDict) k Value.none ∧
         d.azure_value = (if (dictGetD (ComparisonEngine.lowerDictS azure_tags) k Value.none).isNone
           then Value.none
           else dictGetD (ComparisonEngine.lowerDictS azure_tags) k Value.none))) := by
  have hother : ∀ x, x ≠ k →
      ∀ d, ComparisonEngine.tagStep (ComparisonEngine.lowerDictV tf_tags.asDict)
        (ComparisonEngine.lowerDictS azure_tags) x = some d →
      (d.property_path == "tags." ++ k) = false := by
    intro x hxk d hd
    rw [(tagStep_some_shape _ _ _ _ hd).1]
    exact beq_false_of_ne (fun h => hxk (string_append_left_cancel h))
  refine ⟨?_, ?_, ?_⟩
  · intro h
    rw [compareTags_eq]
    apply countP_filterMap_zero
    intro x _ d hd
    by_cases hxk : x = k
    · subst hxk
      rw [tagStep_none_of_tfNone _ _ _ h] at hd
      exact Option.noConfusion hd
    · exact hother x hxk d hd
  · intro h
    rw [compareTags_eq]
    apply countP_filterMap_zero
    intro x _ d hd
    by_cases hxk : x = k
    · subst hxk
      rw [tagStep_none_of_eq _ _ _ h] at hd
      exact Option.noConfusion hd
    · exact hother x hxk d hd
  · intro h1 h2
    have hkmem : k ∈ (((ComparisonEngine.lowerDictV tf_tags.asDict).map Prod.fst) ++
        ((ComparisonEngine.lowerDictS azure_tags).map Prod.fst)).dedup := by
      rw [List.mem_dedup, List.mem_append]
      exact Or.inl (dictGetD_not_none_mem_keys _ k h1)
    have hsome := tagStep_isSome_of _ _ k h1 h2
    obtain ⟨d0, hd0⟩ := Option.isSome_iff_exists.mp hsome
    have hs := tagStep_some_shape _ _ _ _ hd0
    constructor
    · rw [compareTags_eq,
        countP_filterMap_single _ _ _ k (List.nodup_dedup _) hkmem
          (fun x _ hxk d hd => hother x hxk d hd)
          (fun d hd => by rw [(tagStep_some_shape _ _ _ _ hd).1]; simp),
        if_pos hsome]
    · exact ⟨d0,
        by rw [compareTags_eq, List.mem_filterMap]; exact ⟨k, hkmem, hd0⟩,
        hs.1, hs.2.1, hs.2.2⟩

/-- C8 witness: declarative tags `{Env: prod}` against live tags
`{env: dev, owner: ops}` — the differing `env` is reported exactly once
under `tags.env`, the live-only `owner` not at all. -/
theorem C8_tag_union_witness :
    (ComparisonEngine.compareTags (.dict [("Env", .str "prod")])
        [("env", "dev"), ("owner", "ops")]).countP
      (fun d => d.property_path == "tags." ++ "env") = 1 ∧
    (ComparisonEngine.compareTags (.dict [("Env", .str "prod")])
        [("env", "dev"), ("owner", "ops")]).countP
      (fun d => d.property_path == "tags." ++ "owner") = 0 :=
  ⟨((C8_tag_union (.dict [("Env", .str "prod")])
      [("env", "dev"), ("owner", "ops")] "env").2.2 rfl rfl).1,
   (C8_tag_union (.dict [("Env", .str "prod")])
      [("env", "dev"), ("owner", "ops")] "owner").1 rfl⟩

/-! ## Claim C10 -/

/-- C10: tag values are compared raw while projected fields are compared
normalized.  For a matched pair and a tag key present on both (lower-cased)
sides whose string values differ at all — even only by case or surrounding
whitespace — tag comparison reports a `FieldDifference` under `tags.<key>`;
whereas any projected (non-tag) field whose declarative and live strings
normalize identically produces no `FieldDifference`. -/
theorem C10_tags_compared_unnormalized (tf_tags : Value)
    (azure_tags : List (String × String)) (k v w : String)
    (hv : dictGetD (ComparisonEngine.lowerDictV tf_tags.asDict) k Value.none = .str v)
    (hw : dictGetD (ComparisonEngine.lowerDictS azure_tags) k Value.none = .str w)
    (hne : v ≠ w)
    (hnorm : pyStrip (pyLower v) = pyStrip (pyLower w)) :
    (∃ d ∈ ComparisonEngine.compareTags tf_tags azure_tags,
       d.property_path = "tags." ++ k ∧ d.terraform_value = .str v ∧
       d.azure_value = .str w) ∧
    valuesEqual (normalizeValue (.str v)) (normalizeValue (.str w)) = true ∧
    (∀ (tf : TerraformResource) (az : AzureResource) (prop path : String),
       (prop, path) ∈ ComparisonEngine.mappingFor tf.terraform_type →
       dictGetD tf.config prop Value.none = .str v →
       getNestedValue az path = .str w →
       ∀ d ∈ ComparisonEngine.compareProperties tf az, d.property_path ≠ prop) := by
  have hpe : pyEq (Value.str v) (Value.str w) = false := by
    simp [pyEq, beq_false_of_ne hne]
  have hnv : valuesEqual (normalizeValue (.str v)) (normalizeValue (.str w)) = true := by
    rw [show normalizeValue (.str v) = .str (pyStrip (pyLower v)) from rfl,
      show normalizeValue (.str w) = .str (pyStrip (pyLower w)) from rfl, hnorm]
    simp [valuesEqual, pyEq]
  refine ⟨?_, hnv, ?_⟩
  · have hstep : ComparisonEngine.tagStep (ComparisonEngine.lowerDictV tf_tags.asDict)
        (ComparisonEngine.lowerDictS azure_tags) k =
        some { property_path := "tags." ++ k, terraform_value := .str v,
               azure_value := .str w,
               description := "Tag \x27" ++ k ++ "\x27 value differs" } := by
      unfold ComparisonEngine.tagStep
      dsimp only
      rw [hv, hw, if_neg (by simp [hpe]), if_neg (by simp [Value.isNone]),
        if_neg (by simp [Value.isNone])]
    have hkmem : k ∈ (((ComparisonEngine.lowerDictV tf_tags.asDict).map Prod.fst) ++
        ((ComparisonEngine.lowerDictS azure_tags).map Prod.fst)).dedup := by
      rw [List.mem_dedup, List.mem_append]
      exact Or.inl (dictGetD_not_none_mem_keys _ k (by rw [hv]; rfl))
    exact ⟨_, by rw [compareTags_eq, List.mem_filterMap]; exact ⟨k, hkmem, hstep⟩,
      rfl, rfl, rfl⟩
  · intro tf az prop path hm hcfg hlive
    apply projLoop_no_path tf az prop path hm
    apply projectField_none_of_skip
    refine Or.inr (Or.inr ?_)
    rw [hcfg, hlive]
    exact hnv

/-- C10 witness: tag `env` with values `Prod` (declarative) and `prod`
(live) — equal after normalization, still reported as a tag difference. -/
theorem C10_tags_compared_unnormalized_witness :
    (∃ d ∈ ComparisonEngine.compareTags (.dict [("env", .str "Prod")]) [("env", "prod")],
       d.property_path = "tags." ++ "env" ∧ d.terraform_value = .str "Prod" ∧
       d.azure_value = .str "prod") ∧
    valuesEqual (normalizeValue (.str "Prod")) (normalizeValue (.str "prod")) = true :=
  ⟨(C10_tags_compared_unnormalized (.dict [("env", .str "Prod")]) [("env", "prod")]
      "env" "Prod" "prod" rfl rfl (by decide) rfl).1,
   (C10_tags_compared_unnormalized (.dict [("env", .str "Prod")]) [("env", "prod")]
      "env" "Prod" "prod" rfl rfl (by decide) rfl).2.1⟩
